import Mathlib

/-! The data store of the Plex command-line client (`cmd/store.go`).

A shallow embedding of `cmd/store.go`: the `store` type, `initDataStore`, `Close` and the
six accessors for the application secret, the Plex token and the Plex server descriptor.

The code is glue over three external collaborators, none of which is part of the file:

* the operating system (`os.Stat`, `os.Mkdir`), rendered as a set of existing paths;
* the embedded key-value database (`badger`), rendered as a map from keys to items
  together with the failures its calls may report;
* the serializer of the server descriptor (`Serialize`, `unserializeServer`), taken as a
  parameter `ServerCodec`.

Go conventions used throughout:

* a Go `error` is an `Option Error`, `none` being `nil`;
* a Go result pair `(v, err)` is a Lean pair `(v, err)`;
* a `[]byte` is a list of bytes (a `nil` slice and an empty slice are both `[]`);
* a Go `string` is a byte sequence, valid UTF-8 or not;
* the field `db *badger.DB` of `store` is a reference: the object it refers to is passed
  to every method as an explicit `DB` argument and handed back in the result;
* what a function prints on standard output is returned as a list of `Event`s.
-/

namespace PlexStore

/-! ## Bytes, strings, errors -/

/-- The Go type `[]byte`. -/
abbrev Bytes := List UInt8

/-- The Go type `string`: an immutable sequence of bytes. -/
structure GoString where
  data : Bytes
deriving DecidableEq, Repr

/-- The conversion `[]byte(s)`. -/
def GoString.toBytes (s : GoString) : Bytes := s.data

/-- The conversion `string(b)`. -/
def GoString.ofBytes (b : Bytes) : GoString := ⟨b⟩

/-- The bytes of a string literal of the source, as in `[]byte("app-secret")`. -/
def bytesOfLiteral (s : String) : Bytes := s.toUTF8.data.toList

/-- The non-nil values of the Go interface `error` that the modelled calls produce. -/
inductive Error where
  /-- The value `badger.ErrKeyNotFound`. -/
  | ErrKeyNotFound
  /-- The value `badger.ErrReadOnlyTxn`. -/
  | ErrReadOnlyTxn
  /-- An `*os.PathError` wrapping `ENOENT`. -/
  | ENOENT
  /-- An `*os.PathError` wrapping `EEXIST`. -/
  | EEXIST
  /-- Any other error, identified by a code. -/
  | other (code : Nat)
deriving DecidableEq, Repr

/-! ## The filesystem: `os.Stat`, `os.Mkdir`, `os.IsNotExist` -/

/-- A directory path, as the list of its components below the directory it is resolved
against; the empty list is that directory itself, and the parent of a path is the path
without its last component. -/
abbrev Path := List String

/-- The filesystem: the set of paths that exist. -/
structure FS where
  paths : List Path
deriving DecidableEq, Repr

/-- Whether a path exists; the directory everything is resolved against always does. -/
def FS.has (fs : FS) (name : Path) : Bool :=
  decide (name = []) || decide (name ∈ fs.paths)

/-- The error of `os.Stat(name)` (the file information is never used by the code). -/
def os.Stat (fs : FS) (name : Path) : Option Error :=
  if fs.has name then none else some Error.ENOENT

/-- The predicate `os.IsNotExist(err)`. -/
def os.IsNotExist (err : Option Error) : Bool :=
  decide (err = some Error.ENOENT)

/-- The call `os.Mkdir(name, perm)`: creates the single directory `name`; it fails when
`name` exists already and when the parent of `name` does not exist. -/
def os.Mkdir (fs : FS) (name : Path) : FS × Option Error :=
  if fs.has name then (fs, some Error.EEXIST)
  else if fs.has name.dropLast then (⟨name :: fs.paths⟩, none)
  else (fs, some Error.ENOENT)

/-! ## The embedded key-value database -/

/-- The item found under a key: its value can be read, or reading it fails. -/
inductive Item where
  | readable (val : Bytes)
  | unreadable (err : Error)
deriving DecidableEq, Repr

/-- The call `item.Value()`. -/
def Item.Value : Item → Except Error Bytes
  | .readable val => .ok val
  | .unreadable err => .error err

/-- The database object behind a `*badger.DB`. -/
structure DB where
  /-- The live item of each key, if any. -/
  kv : Bytes → Option Item
  /-- The error with which `txn.Set(key, val)` rejects an entry, if it does. -/
  setErr : Bytes → Bytes → Option Error
  /-- The error with which committing a read-write transaction fails, if it does. -/
  commitErr : Option Error
  /-- The error that `db.Close()` reports, if any. -/
  closeErr : Option Error
  /-- How many times `db.Close()` was invoked on the object. -/
  closeCalls : Nat

/-- A transaction: a working copy of the database, read-only or read-write. -/
structure Txn where
  db : DB
  update : Bool

/-- The call `txn.Get(key)`. -/
def Txn.Get (txn : Txn) (key : Bytes) : Except Error Item :=
  match txn.db.kv key with
  | some item => .ok item
  | none => .error Error.ErrKeyNotFound

/-- The call `txn.Set(key, val, meta)`: on success the entry replaces whatever the key
held in the working copy. -/
def Txn.Set (txn : Txn) (key val : Bytes) : Txn × Option Error :=
  if txn.update then
    match txn.db.setErr key val with
    | some err => (txn, some err)
    | none =>
      ({ txn with db := { txn.db with
          kv := fun k => if k = key then some (Item.readable val) else txn.db.kv k } }, none)
  else (txn, some Error.ErrReadOnlyTxn)

/-- The call `db.View(fn)`: runs `fn` in a read-only transaction, discards the
transaction and returns the error of `fn`. The first component of the result of `fn` is
the value that the closure leaves in the variables it captured. -/
def DB.View {σ : Type} (db : DB) (fn : Txn → σ × Option Error) : (σ × Option Error) × DB :=
  (fn ⟨db, false⟩, db)

/-- The call `db.Update(fn)`: runs `fn` in a read-write transaction; when `fn` fails the
transaction is discarded and the error returned, otherwise the transaction is committed. -/
def DB.Update (db : DB) (fn : Txn → Txn × Option Error) : Option Error × DB :=
  match fn ⟨db, true⟩ with
  | (_, some err) => (some err, db)
  | (txn, none) =>
    match db.commitErr with
    | some err => (some err, db)
    | none => (none, txn.db)

/-- The call `db.Close()`. -/
def DB.Close (db : DB) : Option Error × DB :=
  (db.closeErr, { db with closeCalls := db.closeCalls + 1 })

/-- The fields of `badger.Options` that the code sets. -/
structure Options where
  Dir : Path
  ValueDir : Path
deriving DecidableEq, Repr

/-- The value `badger.DefaultOptions`, which names no directory. -/
def DefaultOptions : Options := ⟨[], []⟩

/-! ## The server descriptor and its serializer -/

/-- The type `server` with its zero value, the method `Serialize` and the function
`unserializeServer`, all declared outside `cmd/store.go`. -/
structure ServerCodec (server : Type) where
  zero : server
  Serialize : server → Bytes × Option Error
  unserializeServer : Bytes → server × Option Error

/-! ## Standard output -/

/-- A line printed on standard output. -/
inductive Event where
  /-- The line "checking if our database exists in the home directory at: dirName". -/
  | checkingDatabase (dirName : Path)
  /-- The line "creating directory because it doesn't exist". -/
  | creatingDirectory
  /-- The line "successfully opened data store". -/
  | openedDataStore
  /-- The line "data store already closed". -/
  | alreadyClosed
  /-- The line "data store failed to closed: err". -/
  | failedToClose (err : Error)
  /-- The line "Your plex token is plexToken". -/
  | plexTokenIs (plexToken : GoString)
  /-- The line "saved token to store". -/
  | savedToken
deriving DecidableEq, Repr

/-- The lines printed by a statement guarded by `if isVerbose`. -/
def whenVerbose (isVerbose : Bool) (e : Event) : List Event :=
  if isVerbose then [e] else []

/-! ## `store` -/

/-- The type `storeKeys`. -/
structure storeKeys where
  appSecret : Bytes
  plexToken : Bytes
  plexServer : Bytes
deriving DecidableEq, Repr

/-- The type `store`, without its reference `db`. -/
structure store where
  isClosed : Bool
  keys : storeKeys
  secret : Bytes
deriving DecidableEq, Repr

/-- The zero value of `store`, as declared by `var db store`. -/
def store.zero : store := ⟨false, ⟨[], [], []⟩, []⟩

/-- The outcome of a method call: the value returned, the database object afterwards and
the lines printed. -/
structure Ret (α : Type) where
  val : α
  db : DB
  out : List Event

/-- The outcome of `initDataStore`: the store and error returned, the database object the
field `db` of the store refers to (`none` when that field is `nil`), the filesystem
afterwards and the lines printed. -/
structure InitRet where
  val : store × Option Error
  db : Option DB
  fs : FS
  out : List Event

/-- The key literals assigned to `db.keys` in `initDataStore`. -/
def initKeys : storeKeys :=
  { appSecret := bytesOfLiteral "app-secret"
    plexToken := bytesOfLiteral "plex-token"
    plexServer := bytesOfLiteral "plex-server" }

/-- The function `initDataStore`. The parameter `badgerOpen` is `badger.Open`, seen as a
function of the filesystem and the options. -/
def initDataStore (isVerbose : Bool) (badgerOpen : FS → Options → Except Error DB)
    (dirName : Path) (fs : FS) : InitRet :=
  let db : store := store.zero
  let out0 := whenVerbose isVerbose (Event.checkingDatabase dirName)
  -- create a directory for our database
  let made : FS × List Event × Option Error :=
    if os.IsNotExist (os.Stat fs dirName) then
      let out1 := out0 ++ whenVerbose isVerbose Event.creatingDirectory
      match os.Mkdir fs dirName with
      | (fs1, some err) => (fs1, out1, some err)
      | (fs1, none) => (fs1, out1, none)
    else (fs, out0, none)
  match made with
  | (fs1, out1, some err) => ⟨(db, some err), none, fs1, out1⟩
  | (fs1, out1, none) =>
    let options := { DefaultOptions with Dir := dirName, ValueDir := dirName }
    match badgerOpen fs1 options with
    | .error err => ⟨(db, some err), none, fs1, out1⟩
    | .ok kvStore =>
      let out2 := out1 ++ whenVerbose isVerbose Event.openedDataStore
      ⟨({ db with keys := initKeys }, none), some kvStore, fs1, out2⟩

/-- The method `Close`. Its receiver is passed by value: `val` is the copy of the store
the method worked on, as it stands when the method returns; the store of the caller is not
touched. -/
def store.Close (s : store) (db : DB) : Ret store :=
  if s.isClosed then
    ⟨s, db, [Event.alreadyClosed]⟩
  else
    match db.Close with
    | (some err, db1) => ⟨{ s with isClosed := true }, db1, [Event.failedToClose err]⟩
    | (none, db1) => ⟨{ s with isClosed := true }, db1, []⟩

/-- The method `getSecret`. -/
def store.getSecret (s : store) (db : DB) : Ret Bytes :=
  let secret : Bytes := []
  -- an error is returned when the key is not found
  -- so just return an empty secret
  let r := db.View (fun txn =>
    match txn.Get s.keys.appSecret with
    | .error err => (secret, some err)
    | .ok item =>
      match item.Value with
      | .error err => (secret, some err)
      | .ok _secret => (_secret, none))
  ⟨r.1.1, r.2, []⟩

/-- The method `saveSecret`. -/
def store.saveSecret (s : store) (secret : Bytes) (db : DB) : Ret (Option Error) :=
  let r := db.Update (fun txn => txn.Set s.keys.appSecret secret)
  ⟨r.1, r.2, []⟩

/-- The method `getPlexToken`. -/
def store.getPlexToken (isVerbose : Bool) (s : store) (db : DB) :
    Ret (GoString × Option Error) :=
  let plexToken : GoString := ⟨[]⟩
  let r := db.View (fun txn =>
    match txn.Get s.keys.plexToken with
    | .error err => (plexToken, some err)
    | .ok item =>
      match item.Value with
      | .error err => (plexToken, some err)
      | .ok _plexToken => (GoString.ofBytes _plexToken, none))
  match r with
  | ((plexToken, some err), db1) => ⟨(plexToken, some err), db1, []⟩
  | ((plexToken, none), db1) =>
    ⟨(plexToken, none), db1, whenVerbose isVerbose (Event.plexTokenIs plexToken)⟩

/-- The method `savePlexToken`. -/
def store.savePlexToken (isVerbose : Bool) (s : store) (token : GoString) (db : DB) :
    Ret (Option Error) :=
  match db.Update (fun txn => txn.Set s.keys.plexToken token.toBytes) with
  | (some err, db1) => ⟨some err, db1, []⟩
  | (none, db1) => ⟨none, db1, whenVerbose isVerbose Event.savedToken⟩

/-- The method `getPlexServer`. -/
def store.getPlexServer {server : Type} (c : ServerCodec server) (s : store) (db : DB) :
    Ret (server × Option Error) :=
  let plexServer : server := c.zero
  let r := db.View (fun txn =>
    match txn.Get s.keys.plexServer with
    | .error err => (plexServer, some err)
    | .ok item =>
      match item.Value with
      | .error err => (plexServer, some err)
      | .ok serializedServer =>
        match c.unserializeServer serializedServer with
        | (_, some err) => (plexServer, some err)
        | (_plexServer, none) => (_plexServer, none))
  ⟨r.1, r.2, []⟩

/-- The method `savePlexServer`. -/
def store.savePlexServer {server : Type} (c : ServerCodec server) (s : store)
    (plexServer : server) (db : DB) : Ret (Option Error) :=
  match c.Serialize plexServer with
  | (_, some err) => ⟨some err, db, []⟩
  | (serializedServer, none) =>
    let r := db.Update (fun txn => txn.Set s.keys.plexServer serializedServer)
    ⟨r.1, r.2, []⟩

/-! ## Sample collaborators, used to run the definitions on concrete inputs -/

/-- A database that holds nothing and accepts every write. -/
def emptyDB : DB :=
  { kv := fun _ => none, setErr := fun _ _ => none, commitErr := none, closeErr := none,
    closeCalls := 0 }

/-- A database that holds a secret and a token already and accepts every write. -/
def usedDB : DB :=
  { emptyDB with
    kv := fun k =>
      if k = initKeys.appSecret then some (Item.readable [1, 2, 3])
      else if k = initKeys.plexToken then some (Item.readable [52, 50])
      else none }

/-- A database that holds nothing and rejects every value longer than four bytes. -/
def smallDB : DB :=
  { emptyDB with setErr := fun _ val => if 4 < val.length then some (Error.other 3) else none }

/-- A database whose plex-server key holds two bytes that are no serialized descriptor. -/
def brokenDB : DB :=
  { emptyDB with
    kv := fun k => if k = initKeys.plexServer then some (Item.readable [5, 5]) else none }

/-- A `badger.Open` that succeeds, with an empty database, on every directory that exists. -/
def sampleOpen (fs : FS) (options : Options) : Except Error DB :=
  if fs.has options.Dir then .ok emptyDB else .error Error.ENOENT

/-- A serializer over byte strings: a descriptor is stored behind a zero byte, descriptors
longer than six bytes are refused, and bytes that do not start with a zero byte are
rejected while being handed back as they are. -/
def sampleCodec : ServerCodec Bytes :=
  { zero := []
    Serialize := fun x => if 6 < x.length then ([], some (Error.other 7)) else (0 :: x, none)
    unserializeServer := fun b =>
      match b with
      | 0 :: x => (x, none)
      | _ => (b, some (Error.other 9)) }

/-- A store as `initDataStore` returns it. -/
def sampleStore : store := { store.zero with keys := initKeys }

/-! ## Facts about the database model -/

/-- A write transaction made of one `Set`: it fails with the error of `Set` or of the
commit and leaves the database as it was, or it succeeds and binds the key. -/
theorem DB.update_set (db : DB) (key val : Bytes) :
    db.Update (fun txn => txn.Set key val) =
      match db.setErr key val with
      | some err => (some err, db)
      | none =>
        match db.commitErr with
        | some err => (some err, db)
        | none =>
          (none, { db with kv := fun k => if k = key then some (Item.readable val) else db.kv k }) := by
  unfold DB.Update Txn.Set
  cases hs : db.setErr key val <;> cases hc : db.commitErr <;> simp [hs, hc]

/-- A write transaction that reports no error has bound the key to the value written. -/
theorem DB.update_set_ok (db : DB) (key val : Bytes)
    (h : (db.Update (fun txn => txn.Set key val)).1 = none) :
    (db.Update (fun txn => txn.Set key val)).2 =
      { db with kv := fun k => if k = key then some (Item.readable val) else db.kv k } := by
  rw [DB.update_set] at h ⊢
  cases hs : db.setErr key val <;> cases hc : db.commitErr <;> simp_all

/-- A write transaction made of one `Set` leaves every other key as it was. -/
theorem DB.update_set_other (db : DB) (key val k : Bytes) (hk : k ≠ key) :
    (db.Update (fun txn => txn.Set key val)).2.kv k = db.kv k := by
  rw [DB.update_set]
  cases hs : db.setErr key val <;> cases hc : db.commitErr <;> simp [hk]

/-- What `getSecret` returns depends on the item of the app-secret key only. -/
theorem getSecret_val_congr (s : store) (db1 db2 : DB)
    (h : db1.kv s.keys.appSecret = db2.kv s.keys.appSecret) :
    (s.getSecret db1).val = (s.getSecret db2).val := by
  simp [store.getSecret, DB.View, Txn.Get, h]

/-- What `getPlexToken` returns depends on the item of the plex-token key only. -/
theorem getPlexToken_val_congr (isVerbose : Bool) (s : store) (db1 db2 : DB)
    (h : db1.kv s.keys.plexToken = db2.kv s.keys.plexToken) :
    (s.getPlexToken isVerbose db1).val = (s.getPlexToken isVerbose db2).val := by
  unfold store.getPlexToken DB.View Txn.Get
  simp only [h]
  cases db2.kv s.keys.plexToken with
  | none => rfl
  | some item => cases item <;> rfl

/-- What `getPlexServer` returns depends on the item of the plex-server key only. -/
theorem getPlexServer_val_congr {server : Type} (c : ServerCodec server) (s : store)
    (db1 db2 : DB) (h : db1.kv s.keys.plexServer = db2.kv s.keys.plexServer) :
    (s.getPlexServer c db1).val = (s.getPlexServer c db2).val := by
  simp [store.getPlexServer, DB.View, Txn.Get, h]

/-- The method `saveSecret` leaves every key but the app-secret key as it was. -/
theorem saveSecret_kv_other (s : store) (secret : Bytes) (db : DB) (k : Bytes)
    (hk : k ≠ s.keys.appSecret) : (s.saveSecret secret db).db.kv k = db.kv k := by
  simpa [store.saveSecret] using DB.update_set_other db s.keys.appSecret secret k hk

/-- The method `savePlexToken` leaves every key but the plex-token key as it was. -/
theorem savePlexToken_kv_other (isVerbose : Bool) (s : store) (token : GoString) (db : DB)
    (k : Bytes) (hk : k ≠ s.keys.plexToken) :
    (s.savePlexToken isVerbose token db).db.kv k = db.kv k := by
  have hdb : (s.savePlexToken isVerbose token db).db =
      (db.Update (fun txn => txn.Set s.keys.plexToken token.toBytes)).2 := by
    unfold store.savePlexToken
    split <;> simp_all
  rw [hdb]
  exact DB.update_set_other db s.keys.plexToken token.toBytes k hk

/-- The method `savePlexServer` leaves every key but the plex-server key as it was. -/
theorem savePlexServer_kv_other {server : Type} (c : ServerCodec server) (s : store)
    (plexServer : server) (db : DB) (k : Bytes) (hk : k ≠ s.keys.plexServer) :
    (s.savePlexServer c plexServer db).db.kv k = db.kv k := by
  unfold store.savePlexServer
  rcases hser : c.Serialize plexServer with ⟨b, _ | e⟩
  · simpa using DB.update_set_other db s.keys.plexServer b k hk
  · simp

/-- The store that `initDataStore` returns is never flagged as closed. -/
theorem initDataStore_isClosed (isVerbose : Bool) (badgerOpen : FS → Options → Except Error DB)
    (dirName : Path) (fs : FS) :
    (initDataStore isVerbose badgerOpen dirName fs).val.1.isClosed = false := by
  unfold initDataStore
  simp only
  split
  · rfl
  · split <;> rfl

/-! ## The claims -/

/-- C1: when `saveSecret(secret)` returns no error, the `getSecret()` that follows returns
exactly `secret`, whatever the app-secret key held before. -/
theorem saveSecret_getSecret (s : store) (db : DB) (secret : Bytes)
    (h : (s.saveSecret secret db).val = none) :
    (s.getSecret (s.saveSecret secret db).db).val = secret := by
  unfold store.saveSecret at h ⊢
  simp only at h ⊢
  rw [DB.update_set_ok db _ _ h]
  simp [store.getSecret, DB.View, Txn.Get, Item.Value]

/-- Witness of C1: a secret saved over an older one is the secret read back. -/
theorem saveSecret_getSecret_witness :
    (sampleStore.getSecret usedDB).val = [1, 2, 3] ∧
    (sampleStore.saveSecret [7, 8] usedDB).val = none ∧
    (sampleStore.getSecret (sampleStore.saveSecret [7, 8] usedDB).db).val = [7, 8] :=
  ⟨by decide, by decide, saveSecret_getSecret sampleStore usedDB [7, 8] (by decide)⟩

/-- C2: when `savePlexToken(token)` returns no error, the `getPlexToken()` that follows
returns `(token, nil)`, for every string `token`, empty or not valid UTF-8 included. -/
theorem savePlexToken_getPlexToken (isVerbose : Bool) (s : store) (db : DB) (token : GoString)
    (h : (s.savePlexToken isVerbose token db).val = none) :
    (s.getPlexToken isVerbose (s.savePlexToken isVerbose token db).db).val = (token, none) := by
  have hu : (db.Update (fun txn => txn.Set s.keys.plexToken token.toBytes)).1 = none := by
    unfold store.savePlexToken at h
    split at h
    · simp at h
    · simp_all
  have hdb : (s.savePlexToken isVerbose token db).db =
      (db.Update (fun txn => txn.Set s.keys.plexToken token.toBytes)).2 := by
    unfold store.savePlexToken
    split <;> simp_all
  rw [hdb, DB.update_set_ok db _ _ hu]
  simp [store.getPlexToken, DB.View, Txn.Get, Item.Value, GoString.ofBytes, GoString.toBytes]

/-- Witness of C2: the token made of the two bytes `0xff 0xfe`, which is not valid UTF-8,
saved over an older token, is the token read back; so is the empty token. -/
theorem savePlexToken_getPlexToken_witness :
    (sampleStore.savePlexToken true ⟨[255, 254]⟩ usedDB).val = none ∧
    (sampleStore.getPlexToken true
      (sampleStore.savePlexToken true ⟨[255, 254]⟩ usedDB).db).val = (⟨[255, 254]⟩, none) ∧
    (sampleStore.getPlexToken true
      (sampleStore.savePlexToken true ⟨[]⟩ usedDB).db).val = (⟨[]⟩, none) :=
  ⟨by decide, savePlexToken_getPlexToken true sampleStore usedDB ⟨[255, 254]⟩ (by decide),
    savePlexToken_getPlexToken true sampleStore usedDB ⟨[]⟩ (by decide)⟩

/-- C3, as stated, fails: a descriptor that serializes and deserializes without loss, saved
into a database that rejects the write, is not the descriptor read back;
`savePlexServer` returns the error of the write and `getPlexServer` the key-not-found
error. -/
theorem savePlexServer_getPlexServer_counterexample :
    sampleCodec.Serialize [1, 2, 3, 4, 5] = ([0, 1, 2, 3, 4, 5], none) ∧
    sampleCodec.unserializeServer [0, 1, 2, 3, 4, 5] = ([1, 2, 3, 4, 5], none) ∧
    (sampleStore.savePlexServer sampleCodec [1, 2, 3, 4, 5] smallDB).val
      = some (Error.other 3) ∧
    (sampleStore.getPlexServer sampleCodec
      (sampleStore.savePlexServer sampleCodec [1, 2, 3, 4, 5] smallDB).db).val
      = ([], some Error.ErrKeyNotFound) ∧
    (sampleStore.getPlexServer sampleCodec
      (sampleStore.savePlexServer sampleCodec [1, 2, 3, 4, 5] smallDB).db).val
      ≠ ([1, 2, 3, 4, 5], none) := by
  decide

/-- C3, amended: for a descriptor that `Serialize` turns into bytes which
`unserializeServer` turns back into the descriptor, when `savePlexServer` returns no error
the `getPlexServer()` that follows returns the descriptor and no error. -/
theorem savePlexServer_getPlexServer {server : Type} (c : ServerCodec server) (s : store)
    (db : DB) (plexServer : server) (b : Bytes)
    (hser : c.Serialize plexServer = (b, none))
    (hunser : c.unserializeServer b = (plexServer, none))
    (h : (s.savePlexServer c plexServer db).val = none) :
    (s.getPlexServer c (s.savePlexServer c plexServer db).db).val = (plexServer, none) := by
  unfold store.savePlexServer at h ⊢
  rw [hser] at h ⊢
  simp only at h ⊢
  rw [DB.update_set_ok db _ _ h]
  simp [store.getPlexServer, DB.View, Txn.Get, Item.Value, hunser]

/-- Witness of the amended C3: a descriptor saved into a database that accepts the write is
the descriptor read back. -/
theorem savePlexServer_getPlexServer_witness :
    sampleCodec.Serialize [1, 2, 3] = ([0, 1, 2, 3], none) ∧
    sampleCodec.unserializeServer [0, 1, 2, 3] = ([1, 2, 3], none) ∧
    (sampleStore.savePlexServer sampleCodec [1, 2, 3] smallDB).val = none ∧
    (sampleStore.getPlexServer sampleCodec
      (sampleStore.savePlexServer sampleCodec [1, 2, 3] smallDB).db).val = ([1, 2, 3], none) :=
  ⟨by decide, by decide, by decide,
    savePlexServer_getPlexServer sampleCodec sampleStore smallDB [1, 2, 3] [0, 1, 2, 3]
      (by decide) (by decide) (by decide)⟩

/-- C4 fails on the code: `Close` has a value receiver, so the flag it sets is set on its
own copy of the store. For every store that `initDataStore` returns, the first `Close()`
flags its copy only, and the second `Close()` on the same store does not take the
already-closed branch: it does not print "data store already closed" and it invokes
`Close` of the database a second time. -/
theorem close_twice_calls_database_twice (isVerbose : Bool)
    (badgerOpen : FS → Options → Except Error DB) (dirName : Path) (fs : FS)
    (s : store) (kvStore : DB)
    (hinit : (initDataStore isVerbose badgerOpen dirName fs).val = (s, none)) :
    s.isClosed = false ∧
    (s.Close kvStore).val.isClosed = true ∧
    (s.Close kvStore).db.closeCalls = kvStore.closeCalls + 1 ∧
    Event.alreadyClosed ∉ (s.Close (s.Close kvStore).db).out ∧
    (s.Close (s.Close kvStore).db).db.closeCalls = kvStore.closeCalls + 2 := by
  have hs : s.isClosed = false := by
    have h1 := initDataStore_isClosed isVerbose badgerOpen dirName fs
    rw [hinit] at h1
    exact h1
  have hc : ∀ db : DB, (s.Close db).db.closeCalls = db.closeCalls + 1 ∧
      Event.alreadyClosed ∉ (s.Close db).out ∧ (s.Close db).val.isClosed = true := by
    intro db
    unfold store.Close DB.Close
    cases db.closeErr <;> simp [hs]
  refine ⟨hs, (hc kvStore).2.2, (hc kvStore).1, (hc _).2.1, ?_⟩
  rw [(hc _).1, (hc kvStore).1]

/-- Witness of the failure of C4: the store opened on the fresh directory `plex`, closed
twice; the second `Close()` prints nothing and the database has been closed twice. -/
theorem close_twice_calls_database_twice_witness :
    (initDataStore false sampleOpen ["plex"] ⟨[]⟩).val = (sampleStore, none) ∧
    (initDataStore false sampleOpen ["plex"] ⟨[]⟩).db.isSome = true ∧
    (sampleStore.Close (sampleStore.Close emptyDB).db).out = [] ∧
    (sampleStore.Close (sampleStore.Close emptyDB).db).db.closeCalls = 2 ∧
    (sampleStore.isClosed = false ∧
    (sampleStore.Close emptyDB).val.isClosed = true ∧
    (sampleStore.Close emptyDB).db.closeCalls = emptyDB.closeCalls + 1 ∧
    Event.alreadyClosed ∉ (sampleStore.Close (sampleStore.Close emptyDB).db).out ∧
    (sampleStore.Close (sampleStore.Close emptyDB).db).db.closeCalls
      = emptyDB.closeCalls + 2) :=
  ⟨by decide, by decide, by decide, by decide,
    close_twice_calls_database_twice false sampleOpen ["plex"] ⟨[]⟩ sampleStore emptyDB
      (by decide)⟩

/-- C5: on a database in which the app-secret key is absent, `getSecret()` returns a byte
sequence of length zero, prints nothing and leaves the database as it was. -/
theorem getSecret_absent (s : store) (db : DB) (h : db.kv s.keys.appSecret = none) :
    (s.getSecret db).val = [] ∧ (s.getSecret db).val.length = 0 ∧
    (s.getSecret db).db = db ∧ (s.getSecret db).out = [] := by
  simp [store.getSecret, DB.View, Txn.Get, h]

/-- Witness of C5: the secret of a database that was never written is empty. -/
theorem getSecret_absent_witness :
    emptyDB.kv sampleStore.keys.appSecret = none ∧
    (sampleStore.getSecret emptyDB).val = [] ∧ (sampleStore.getSecret emptyDB).val.length = 0 ∧
    (sampleStore.getSecret emptyDB).db = emptyDB ∧ (sampleStore.getSecret emptyDB).out = [] :=
  ⟨by decide, getSecret_absent sampleStore emptyDB (by decide)⟩

/-- C6: on a database in which the plex-token key is absent, `getPlexToken()` returns the
empty string together with the key-not-found error of the database; when the key is
present and its value readable, it returns the value as a string and a nil error. -/
theorem getPlexToken_error (isVerbose : Bool) (s : store) (db : DB) :
    (db.kv s.keys.plexToken = none →
      (s.getPlexToken isVerbose db).val = (⟨[]⟩, some Error.ErrKeyNotFound)) ∧
    (∀ val, db.kv s.keys.plexToken = some (Item.readable val) →
      (s.getPlexToken isVerbose db).val = (GoString.ofBytes val, none)) := by
  constructor
  · intro h
    simp [store.getPlexToken, DB.View, Txn.Get, h]
  · intro val h
    simp [store.getPlexToken, DB.View, Txn.Get, Item.Value, h]

/-- Witness of C6: no token in a database never written, the token of a database that
holds one. -/
theorem getPlexToken_error_witness :
    emptyDB.kv sampleStore.keys.plexToken = none ∧
    (sampleStore.getPlexToken true emptyDB).val = (⟨[]⟩, some Error.ErrKeyNotFound) ∧
    usedDB.kv sampleStore.keys.plexToken = some (Item.readable [52, 50]) ∧
    (sampleStore.getPlexToken true usedDB).val = (⟨[52, 50]⟩, none) :=
  ⟨by decide, (getPlexToken_error true sampleStore emptyDB).1 (by decide), by decide,
    (getPlexToken_error true sampleStore usedDB).2 [52, 50] (by decide)⟩

/-- C7, as stated, fails: on a path whose parent directory does not exist either,
`os.Mkdir` fails and `initDataStore` returns its error with the zero store; nothing is
created and no database is opened, although `badger.Open` succeeds on every existing
directory. -/
theorem initDataStore_missing_parent_counterexample :
    (∀ fs1 options, FS.has fs1 options.Dir = true →
      ∃ kvStore, sampleOpen fs1 options = .ok kvStore) ∧
    FS.has ⟨[]⟩ ["plex", "db"] = false ∧
    FS.has ⟨[]⟩ ["plex"] = false ∧
    (initDataStore false sampleOpen ["plex", "db"] ⟨[]⟩).val = (store.zero, some Error.ENOENT) ∧
    (initDataStore false sampleOpen ["plex", "db"] ⟨[]⟩).fs.has ["plex", "db"] = false ∧
    (initDataStore false sampleOpen ["plex", "db"] ⟨[]⟩).db.isSome = false := by
  refine ⟨?_, by decide, by decide, by decide, by decide, by decide⟩
  intro fs1 options h
  exact ⟨emptyDB, by simp [sampleOpen, h]⟩

/-- C7, amended: for every path that does not exist yet and whose parent directory exists,
`initDataStore` creates the directory and succeeds, provided `badger.Open` succeeds on
every existing directory: the error is nil, the three keys of the store are the byte
strings "app-secret", "plex-token" and "plex-server", its `isClosed` flag is false, the
path exists afterwards and the store refers to an open database. -/
theorem initDataStore_creates_directory (isVerbose : Bool)
    (badgerOpen : FS → Options → Except Error DB) (dirName : Path) (fs : FS)
    (hopen : ∀ fs1 options, FS.has fs1 options.Dir = true →
      ∃ kvStore, badgerOpen fs1 options = .ok kvStore)
    (hnew : fs.has dirName = false) (hparent : fs.has dirName.dropLast = true) :
    (initDataStore isVerbose badgerOpen dirName fs).val.2 = none ∧
    (initDataStore isVerbose badgerOpen dirName fs).val.1.keys =
      { appSecret := bytesOfLiteral "app-secret", plexToken := bytesOfLiteral "plex-token",
        plexServer := bytesOfLiteral "plex-server" } ∧
    (initDataStore isVerbose badgerOpen dirName fs).val.1.isClosed = false ∧
    (initDataStore isVerbose badgerOpen dirName fs).fs = ⟨dirName :: fs.paths⟩ ∧
    (initDataStore isVerbose badgerOpen dirName fs).fs.has dirName = true ∧
    (initDataStore isVerbose badgerOpen dirName fs).db.isSome = true := by
  have hhas : FS.has ⟨dirName :: fs.paths⟩ dirName = true := by simp [FS.has]
  obtain ⟨kvStore, hkv⟩ := hopen ⟨dirName :: fs.paths⟩ ⟨dirName, dirName⟩ hhas
  simp [initDataStore, os.Stat, os.IsNotExist, os.Mkdir, hnew, hparent, DefaultOptions, hkv,
    store.zero, initKeys, hhas]

/-- Witness of the amended C7: the directory `plex/db` is created below the existing
directory `plex`. -/
theorem initDataStore_creates_directory_witness :
    FS.has ⟨[["plex"]]⟩ ["plex", "db"] = false ∧
    FS.has ⟨[["plex"]]⟩ ["plex"] = true ∧
    (initDataStore true sampleOpen ["plex", "db"] ⟨[["plex"]]⟩).val.2 = none ∧
    (initDataStore true sampleOpen ["plex", "db"] ⟨[["plex"]]⟩).val.1.keys =
      { appSecret := bytesOfLiteral "app-secret", plexToken := bytesOfLiteral "plex-token",
        plexServer := bytesOfLiteral "plex-server" } ∧
    (initDataStore true sampleOpen ["plex", "db"] ⟨[["plex"]]⟩).val.1.isClosed = false ∧
    (initDataStore true sampleOpen ["plex", "db"] ⟨[["plex"]]⟩).fs
      = ⟨[["plex", "db"], ["plex"]]⟩ ∧
    (initDataStore true sampleOpen ["plex", "db"] ⟨[["plex"]]⟩).fs.has ["plex", "db"] = true ∧
    (initDataStore true sampleOpen ["plex", "db"] ⟨[["plex"]]⟩).db.isSome = true :=
  ⟨by decide, by decide,
    initDataStore_creates_directory true sampleOpen ["plex", "db"] ⟨[["plex"]]⟩
      (fun fs1 options h => ⟨emptyDB, by simp [sampleOpen, h]⟩) (by decide) (by decide)⟩

/-- C8: when `Serialize()` returns an error, `savePlexServer` returns exactly that error
and the database is the same afterwards as before; when `Serialize()` succeeds,
`savePlexServer` returns exactly the result of the write transaction that sets the
plex-server key to the serialized bytes. -/
theorem savePlexServer_serialize_error {server : Type} (c : ServerCodec server) (s : store)
    (plexServer : server) (db : DB) :
    (∀ b e, c.Serialize plexServer = (b, some e) →
      (s.savePlexServer c plexServer db).val = some e ∧
      (s.savePlexServer c plexServer db).db = db ∧
      (∀ k, (s.savePlexServer c plexServer db).db.kv k = db.kv k)) ∧
    (∀ b, c.Serialize plexServer = (b, none) →
      (s.savePlexServer c plexServer db).val
        = (db.Update (fun txn => txn.Set s.keys.plexServer b)).1 ∧
      (s.savePlexServer c plexServer db).db
        = (db.Update (fun txn => txn.Set s.keys.plexServer b)).2) := by
  constructor
  · intro b e h
    simp [store.savePlexServer, h]
  · intro b h
    simp [store.savePlexServer, h]

/-- Witness of C8: a descriptor of seven bytes is refused by the serializer and nothing is
written; a descriptor of three bytes is written. -/
theorem savePlexServer_serialize_error_witness :
    sampleCodec.Serialize [1, 2, 3, 4, 5, 6, 7] = ([], some (Error.other 7)) ∧
    ((sampleStore.savePlexServer sampleCodec [1, 2, 3, 4, 5, 6, 7] usedDB).val
        = some (Error.other 7) ∧
      (sampleStore.savePlexServer sampleCodec [1, 2, 3, 4, 5, 6, 7] usedDB).db = usedDB ∧
      (∀ k, (sampleStore.savePlexServer sampleCodec [1, 2, 3, 4, 5, 6, 7] usedDB).db.kv k
        = usedDB.kv k)) ∧
    sampleCodec.Serialize [1, 2, 3] = ([0, 1, 2, 3], none) ∧
    ((sampleStore.savePlexServer sampleCodec [1, 2, 3] usedDB).val
        = (usedDB.Update (fun txn => txn.Set sampleStore.keys.plexServer [0, 1, 2, 3])).1 ∧
      (sampleStore.savePlexServer sampleCodec [1, 2, 3] usedDB).db
        = (usedDB.Update (fun txn => txn.Set sampleStore.keys.plexServer [0, 1, 2, 3])).2) :=
  ⟨by decide,
    (savePlexServer_serialize_error sampleCodec sampleStore [1, 2, 3, 4, 5, 6, 7] usedDB).1
      [] (Error.other 7) (by decide),
    by decide,
    (savePlexServer_serialize_error sampleCodec sampleStore [1, 2, 3] usedDB).2
      [0, 1, 2, 3] (by decide)⟩

/-- C9: when reading a present value does not fail, `getPlexServer()` returns a non-nil
error exactly when the plex-server key is absent or `unserializeServer` rejects the stored
bytes; the error is the key-not-found error of the database in the first case and the
error of `unserializeServer` in the second, and in both the descriptor returned is the
zero value. -/
theorem getPlexServer_error {server : Type} (c : ServerCodec server) (s : store) (db : DB)
    (hread : ∀ e, db.kv s.keys.plexServer ≠ some (Item.unreadable e)) :
    ((s.getPlexServer c db).val.2 ≠ none ↔
      (db.kv s.keys.plexServer = none ∨
        ∃ b, db.kv s.keys.plexServer = some (Item.readable b) ∧
          (c.unserializeServer b).2 ≠ none)) ∧
    (db.kv s.keys.plexServer = none →
      (s.getPlexServer c db).val = (c.zero, some Error.ErrKeyNotFound)) ∧
    (∀ b, db.kv s.keys.plexServer = some (Item.readable b) →
      (c.unserializeServer b).2 ≠ none →
      (s.getPlexServer c db).val = (c.zero, (c.unserializeServer b).2)) := by
  cases hk : db.kv s.keys.plexServer with
  | none => simp [store.getPlexServer, DB.View, Txn.Get, hk]
  | some item =>
    cases item with
    | unreadable e => exact absurd hk (hread e)
    | readable b =>
      rcases hu : c.unserializeServer b with ⟨x, _ | e⟩ <;>
        simp [store.getPlexServer, DB.View, Txn.Get, Item.Value, hk, hu]

/-- Witness of C9: an absent key gives the key-not-found error, stored bytes that
`unserializeServer` rejects give its error and the zero descriptor, not the bytes it
handed back, and a stored descriptor gives no error. -/
theorem getPlexServer_error_witness :
    (((sampleStore.getPlexServer sampleCodec usedDB).val.2 ≠ none ↔
      (usedDB.kv sampleStore.keys.plexServer = none ∨
        ∃ b, usedDB.kv sampleStore.keys.plexServer = some (Item.readable b) ∧
          (sampleCodec.unserializeServer b).2 ≠ none)) ∧
      (sampleStore.getPlexServer sampleCodec usedDB).val = ([], some Error.ErrKeyNotFound)) ∧
    (sampleCodec.unserializeServer [5, 5] = ([5, 5], some (Error.other 9)) ∧
      (sampleStore.getPlexServer sampleCodec brokenDB).val = ([], some (Error.other 9))) :=
  ⟨⟨(getPlexServer_error sampleCodec sampleStore usedDB (fun e => by
        have h0 : usedDB.kv sampleStore.keys.plexServer = none := by decide
        simp [h0])).1,
      (getPlexServer_error sampleCodec sampleStore usedDB (fun e => by
        have h0 : usedDB.kv sampleStore.keys.plexServer = none := by decide
        simp [h0])).2.1 (by decide)⟩,
    by decide,
    (getPlexServer_error sampleCodec sampleStore brokenDB (fun e => by
        have h0 : brokenDB.kv sampleStore.keys.plexServer = some (Item.readable [5, 5]) := by
          decide
        simp [h0])).2.2 [5, 5]
      (by decide) (by decide)⟩

/-- C10: the three keys that `initDataStore` sets are pairwise distinct, and on a store
with these keys each save leaves what the accessors of the two other keys return as it
was, and no get changes the database. -/
theorem save_writes_own_key_only {server : Type} (isVerbose : Bool) (c : ServerCodec server)
    (s : store) (db : DB) (secret : Bytes) (token : GoString) (plexServer : server)
    (hkeys : s.keys = initKeys) :
    (initKeys.appSecret ≠ initKeys.plexToken ∧ initKeys.appSecret ≠ initKeys.plexServer ∧
      initKeys.plexToken ≠ initKeys.plexServer) ∧
    ((s.getPlexToken isVerbose (s.saveSecret secret db).db).val
        = (s.getPlexToken isVerbose db).val ∧
      (s.getPlexServer c (s.saveSecret secret db).db).val = (s.getPlexServer c db).val) ∧
    ((s.getSecret (s.savePlexToken isVerbose token db).db).val = (s.getSecret db).val ∧
      (s.getPlexServer c (s.savePlexToken isVerbose token db).db).val
        = (s.getPlexServer c db).val) ∧
    ((s.getSecret (s.savePlexServer c plexServer db).db).val = (s.getSecret db).val ∧
      (s.getPlexToken isVerbose (s.savePlexServer c plexServer db).db).val
        = (s.getPlexToken isVerbose db).val) ∧
    ((s.getSecret db).db = db ∧ (s.getPlexToken isVerbose db).db = db ∧
      (s.getPlexServer c db).db = db) := by
  have h12 : initKeys.appSecret ≠ initKeys.plexToken := by decide
  have h13 : initKeys.appSecret ≠ initKeys.plexServer := by decide
  have h23 : initKeys.plexToken ≠ initKeys.plexServer := by decide
  have k12 : s.keys.appSecret ≠ s.keys.plexToken := by rw [hkeys]; exact h12
  have k13 : s.keys.appSecret ≠ s.keys.plexServer := by rw [hkeys]; exact h13
  have k23 : s.keys.plexToken ≠ s.keys.plexServer := by rw [hkeys]; exact h23
  refine ⟨⟨h12, h13, h23⟩, ⟨?_, ?_⟩, ⟨?_, ?_⟩, ⟨?_, ?_⟩, ?_, ?_, ?_⟩
  · exact getPlexToken_val_congr _ _ _ _ (saveSecret_kv_other _ _ _ _ (Ne.symm k12))
  · exact getPlexServer_val_congr _ _ _ _ (saveSecret_kv_other _ _ _ _ (Ne.symm k13))
  · exact getSecret_val_congr _ _ _ (savePlexToken_kv_other _ _ _ _ _ k12)
  · exact getPlexServer_val_congr _ _ _ _ (savePlexToken_kv_other _ _ _ _ _ (Ne.symm k23))
  · exact getSecret_val_congr _ _ _ (savePlexServer_kv_other _ _ _ _ _ k13)
  · exact getPlexToken_val_congr _ _ _ _ (savePlexServer_kv_other _ _ _ _ _ k23)
  · simp [store.getSecret, DB.View]
  · cases h : db.kv s.keys.plexToken with
    | none => simp [store.getPlexToken, DB.View, Txn.Get, h]
    | some item => cases item <;> simp [store.getPlexToken, DB.View, Txn.Get, Item.Value, h]
  · simp [store.getPlexServer, DB.View]

/-- Witness of C10: the store that `initDataStore` returns, on a database that holds a
secret and a token. -/
theorem save_writes_own_key_only_witness :
    sampleStore.keys = initKeys ∧
    (sampleStore.getPlexToken true (sampleStore.saveSecret [9] usedDB).db).val
      = (⟨[52, 50]⟩, none) ∧
    (sampleStore.getSecret (sampleStore.savePlexToken true ⟨[9]⟩ usedDB).db).val = [1, 2, 3] ∧
    ((initKeys.appSecret ≠ initKeys.plexToken ∧ initKeys.appSecret ≠ initKeys.plexServer ∧
      initKeys.plexToken ≠ initKeys.plexServer) ∧
    ((sampleStore.getPlexToken true (sampleStore.saveSecret [9] usedDB).db).val
        = (sampleStore.getPlexToken true usedDB).val ∧
      (sampleStore.getPlexServer sampleCodec (sampleStore.saveSecret [9] usedDB).db).val
        = (sampleStore.getPlexServer sampleCodec usedDB).val) ∧
    ((sampleStore.getSecret (sampleStore.savePlexToken true ⟨[9]⟩ usedDB).db).val
        = (sampleStore.getSecret usedDB).val ∧
      (sampleStore.getPlexServer sampleCodec (sampleStore.savePlexToken true ⟨[9]⟩ usedDB).db).val
        = (sampleStore.getPlexServer sampleCodec usedDB).val) ∧
    ((sampleStore.getSecret (sampleStore.savePlexServer sampleCodec [4] usedDB).db).val
        = (sampleStore.getSecret usedDB).val ∧
      (sampleStore.getPlexToken true (sampleStore.savePlexServer sampleCodec [4] usedDB).db).val
        = (sampleStore.getPlexToken true usedDB).val) ∧
    ((sampleStore.getSecret usedDB).db = usedDB ∧
      (sampleStore.getPlexToken true usedDB).db = usedDB ∧
      (sampleStore.getPlexServer sampleCodec usedDB).db = usedDB)) :=
  ⟨by decide, by decide, by decide,
    save_writes_own_key_only true sampleCodec sampleStore usedDB [9] ⟨[9]⟩ [4] (by decide)⟩

end PlexStore
